import Mathlib

/-!
Verification of the aws-dsql-auth token generator (`source/auth_token.c`).

The C code is shallowly embedded: C strings become `List Char` (a C string
contains no NUL byte), out-parameters become components of returned pairs,
`aws_raise_error` becomes an `AwsError` value inside `Except`, and the external
collaborators (credentials provider, SigV4 signer, clocks, allocator) become
explicit behavior records so that the orchestrator is a pure function of the
configuration and of those behaviors.
-/

namespace AwsDsqlAuth

/-- Errors raised through `aws_raise_error` (plus the generic `AWS_OP_ERR`
return used when a collaborator has already raised its own error). -/
inductive AwsError where
  /-- `AWS_ERROR_INVALID_ARGUMENT` -/
  | invalidArgument
  /-- `AWS_ERROR_OOM` -/
  | oom
  /-- `AWS_ERROR_INVALID_STATE` -/
  | invalidState
  /-- an error code raised by an external collaborator (nonzero C `int`) -/
  | external (code : Nat)
  /-- `AWS_OP_ERR` returned with the last error left as raised by a collaborator -/
  | opError
deriving DecidableEq, Repr

/-- The literal `DSQL_HOSTNAME_SUFFIX` (".dsql."). -/
def DSQL_HOSTNAME_SUFFIX : List Char := ".dsql.".data

/-- The literal `DSQL_HOSTNAME_END` (".on.aws"). -/
def DSQL_HOSTNAME_END : List Char := ".on.aws".data

/-- `CLUSTER_ID_LENGTH` (26). -/
def CLUSTER_ID_LENGTH : Nat := 26

/-- `DEFAULT_EXPIRES_IN` (900). -/
def DEFAULT_EXPIRES_IN : Nat := 900

/-- The literal `ACTION_DB_CONNECT`. -/
def ACTION_DB_CONNECT : List Char := "DbConnect".data

/-- The literal `ACTION_DB_CONNECT_ADMIN`. -/
def ACTION_DB_CONNECT_ADMIN : List Char := "DbConnectAdmin".data

/-- The literal `SERVICE_NAME` ("dsql"). -/
def SERVICE_NAME : List Char := "dsql".data

/-- `beginsWith needle l` is true when `needle` is an initial segment of `l`
(the comparison `strstr` performs at each candidate offset). -/
def beginsWith : List Char → List Char → Bool
  | [], _ => true
  | _ :: _, [] => false
  | a :: as, b :: bs => a = b && beginsWith as bs

/-- `firstOccur needle haystack` models C `strstr`: the least offset at which
`needle` occurs in `haystack` (`none` when `strstr` returns NULL). -/
def firstOccur (needle : List Char) : List Char → Option Nat
  | [] => if beginsWith needle [] then some 0 else none
  | c :: rest =>
    if beginsWith needle (c :: rest) then some 0
    else (firstOccur needle rest).map (· + 1)

/-- Embedding of `s_extract_region_from_hostname`.

The C function receives `const char *hostname` (modeled as
`Option (List Char)`, `none` for NULL) and an out-parameter
`struct aws_string **region_str`.  It sets `*region_str = NULL` first and
assigns a freshly allocated copy of the region substring only on success, so
the result is the pair (returned status, final value of `*region_str`).
Allocation is modeled as succeeding; the structural error branches perform no
allocation.  A C-string hostname contains no NUL byte, so the
`memcpy`/`aws_string_new_from_c_str` round-trip returns exactly the region
substring. -/
def s_extract_region_from_hostname (hostname : Option (List Char)) :
    Except AwsError Unit × Option (List Char) :=
  match hostname with
  | none => (.error .invalidArgument, none)
  | some h =>
    if h.length < 40 then
      (.error .invalidArgument, none)
    else if firstOccur DSQL_HOSTNAME_SUFFIX h ≠ some CLUSTER_ID_LENGTH then
      -- `!dsql_suffix_pos || (dsql_suffix_pos - hostname) != CLUSTER_ID_LENGTH`
      (.error .invalidArgument, none)
    else if h.drop (h.length - DSQL_HOSTNAME_END.length) ≠ DSQL_HOSTNAME_END then
      (.error .invalidArgument, none)
    else
      -- `region_start = dsql_suffix_pos + strlen(".dsql.")` with the suffix at
      -- offset `CLUSTER_ID_LENGTH`
      let region_start := CLUSTER_ID_LENGTH + DSQL_HOSTNAME_SUFFIX.length
      let region_len := (h.length - DSQL_HOSTNAME_END.length) - region_start
      if region_len = 0 then
        (.error .invalidArgument, none)
      else
        (.ok (), some ((h.drop region_start).take region_len))

/-- AWS credentials as consumed by the signer (`struct aws_credentials`). -/
structure Credentials where
  access_key_id : List Char
  secret_access_key : List Char
  session_token : Option (List Char)
deriving DecidableEq, Repr

/-- Behavior of an external `aws_credentials_provider` across one
`aws_credentials_provider_get_credentials` call: whether the triggering call
itself fails synchronously, and otherwise the `(credentials, error_code)` pair
delivered exactly once to the completion callback
(`s_on_get_credentials_complete`). -/
structure CredentialsProvider where
  /-- `aws_credentials_provider_get_credentials` returns nonzero immediately -/
  immediate_failure : Bool
  /-- the `credentials` argument of the completion callback (NULL = `none`) -/
  completion_credentials : Option Credentials
  /-- the `error_code` argument of the completion callback (0 = `AWS_ERROR_SUCCESS`) -/
  completion_error_code : Nat
deriving DecidableEq, Repr

/-- `struct aws_dsql_auth_config`.  Pointer fields are `Option`s; the
mockable clock `system_clock_fn` is the outcome it would report
(`.ok` nanosecond ticks, or `.error` for a nonzero return). -/
structure AuthConfig where
  credentials_provider : Option CredentialsProvider
  hostname : Option (List Char)
  region : Option (List Char)
  expires_in : Nat
  system_clock_fn : Option (Except Unit Nat)

/-- `aws_dsql_auth_config_init`: zero the struct, then set
`expires_in = DEFAULT_EXPIRES_IN`. -/
def aws_dsql_auth_config_init : AuthConfig :=
  { credentials_provider := none
    hostname := none
    region := none
    expires_in := DEFAULT_EXPIRES_IN
    system_clock_fn := none }

/-- `aws_dsql_auth_config_set_hostname`. -/
def aws_dsql_auth_config_set_hostname (config : AuthConfig) (hostname : List Char) :
    AuthConfig :=
  { config with hostname := some hostname }

/-- `aws_dsql_auth_config_set_region`. -/
def aws_dsql_auth_config_set_region (config : AuthConfig) (region : List Char) :
    AuthConfig :=
  { config with region := some region }

/-- `aws_dsql_auth_config_set_expires_in`: stores the argument verbatim. -/
def aws_dsql_auth_config_set_expires_in (config : AuthConfig) (expires_in : Nat) :
    AuthConfig :=
  { config with expires_in := expires_in }

/-- `aws_dsql_auth_config_set_credentials_provider` (reference counting on the
provider handle is not observable in this embedding). -/
def aws_dsql_auth_config_set_credentials_provider (config : AuthConfig)
    (credentials_provider : Option CredentialsProvider) : AuthConfig :=
  { config with credentials_provider := credentials_provider }

/-- Embedding of `aws_dsql_auth_config_infer_region`.

`out_prev` is the value the caller's `*out_region` held before the call: the
NULL-argument branches return without touching the out-parameter, while
`s_extract_region_from_hostname` first resets it to NULL. -/
def aws_dsql_auth_config_infer_region (config : Option AuthConfig)
    (out_prev : Option (List Char)) : Except AwsError Unit × Option (List Char) :=
  match config with
  | none => (.error .invalidArgument, out_prev)
  | some cfg =>
    match cfg.hostname with
    | none => (.error .invalidArgument, out_prev)
    | some h => s_extract_region_from_hostname (some h)

/-- Embedding of `s_load_credentials`: bridge the asynchronous
`get_credentials` call and inspect the delivered `(credentials, error_code)`
pair exactly as the C does after the condition-variable wait. -/
def s_load_credentials (provider : CredentialsProvider) :
    Except AwsError Credentials :=
  if provider.immediate_failure then
    .error .opError
  else
    if provider.completion_error_code ≠ 0 ∨ provider.completion_credentials = none then
      .error
        (if provider.completion_error_code ≠ 0 then
          .external provider.completion_error_code
        else .invalidState)
    else
      match provider.completion_credentials with
      | some credentials => .ok credentials
      | none => .error .invalidState

/-- Embedding of `s_validate_token_config`. -/
def s_validate_token_config (config : AuthConfig) : Except AwsError Unit :=
  if config.hostname.isNone then
    .error .invalidArgument
  else if config.credentials_provider.isNone then
    .error .invalidArgument
  else if config.region.isNone then
    .error .invalidArgument
  else
    .ok ()

/-- Embedding of `s_get_current_time`: read `config->system_clock_fn` when
set, else the system clock (`sys_clock`), and divide the nanosecond value by
1,000,000 to obtain milliseconds. -/
def s_get_current_time (config : AuthConfig) (sys_clock : Except Unit Nat) :
    Except Unit Nat :=
  match config.system_clock_fn with
  | some clock_fn =>
    match clock_fn with
    | .error _ => .error ()
    | .ok current_time_ns => .ok (current_time_ns / 1000000)
  | none =>
    match sys_clock with
    | .error _ => .error ()
    | .ok current_time_ns => .ok (current_time_ns / 1000000)

/-- `struct aws_http_message`, restricted to what the code sets and reads. -/
structure HttpMessage where
  method : List Char
  path : List Char
  headers : List (List Char × List Char)
deriving DecidableEq, Repr

/-- The `snprintf` format prefix used for the request path. -/
def HTTP_PATH_PREFIX : List Char := "/?Action=".data

/-- Embedding of `s_create_http_request`: a GET request whose path is
`snprintf(path_buffer, 1024, "/?Action=%s", api_action)` (hence truncated to
1023 characters) and whose single header is `Host: <host_name>`.  The
allocation-failure branches are modeled by the environment flag at the call
site. -/
def s_create_http_request (api_action : List Char) (host_name : List Char) :
    HttpMessage :=
  { method := "GET".data
    path := (HTTP_PATH_PREFIX ++ api_action).take 1023
    headers := [("Host".data, host_name)] }

/-- `enum aws_signing_algorithm`, restricted to the value the code uses. -/
inductive SigningAlgorithm where
  | sigv4
deriving DecidableEq, Repr

/-- `enum aws_signature_type`, restricted to the value the code uses. -/
inductive SignatureType where
  | httpRequestQueryParams
deriving DecidableEq, Repr

/-- `struct aws_signing_config_aws`, restricted to the fields the code sets. -/
structure SigningConfig where
  algorithm : SigningAlgorithm
  signature_type : SignatureType
  region : List Char
  service : List Char
  use_double_uri_encode : Bool
  should_normalize_uri_path : Bool
  credentials : Credentials
  expiration_in_seconds : Nat
  date_epoch_ms : Nat
deriving DecidableEq, Repr

/-- The signing configuration `s_sign_request` fills in. -/
def make_signing_config (region : List Char) (credentials : Credentials)
    (expiration_in_seconds : Nat) (date_epoch_ms : Nat) : SigningConfig :=
  { algorithm := .sigv4
    signature_type := .httpRequestQueryParams
    region := region
    service := SERVICE_NAME
    use_double_uri_encode := false
    should_normalize_uri_path := true
    credentials := credentials
    expiration_in_seconds := expiration_in_seconds
    date_epoch_ms := date_epoch_ms }

/-- Behavior of the external `aws_sign_request_aws` signer across one call:
immediate synchronous failure, the error code delivered to
`s_on_signing_complete`, and the path rewriting that
`aws_apply_signing_result_to_http_request` performs on the request. -/
structure SignerBehavior where
  immediate_failure : Bool
  completion_error_code : Nat
  /-- given the signing configuration and the unsigned path, the signed
  path-and-query left on the request by the applied signing result -/
  sign : SigningConfig → List Char → List Char

/-- Observable step of one `generate` call: invocation of the external
credentials provider, or of the external signer (with the request and the
signing configuration handed to it). -/
inductive Event where
  | resolveCredentials
  | signRequest (request : HttpMessage) (config : SigningConfig)
deriving DecidableEq, Repr

/-- The ambient collaborators of one `aws_dsql_auth_token_generate` call that
are not part of the config: the allocator (as success flags for the three
fallible allocation sites), the signer, and the system clock. -/
structure Env where
  /-- the allocations inside `s_create_http_request` succeed -/
  request_alloc_ok : Bool
  /-- `aws_signable_new_http_request` succeeds -/
  signable_alloc_ok : Bool
  signer : SignerBehavior
  /-- the allocations inside `s_create_token_string` succeed -/
  token_alloc_ok : Bool
  /-- outcome of `aws_sys_clock_get_ticks` -/
  sys_clock : Except Unit Nat

/-- Embedding of `s_sign_request`, returning the signed request together with
the trace of signer invocations. -/
def s_sign_request (env : Env) (request : HttpMessage) (credentials : Credentials)
    (region : List Char) (expiration_in_seconds : Nat) (date_epoch_ms : Nat) :
    Except AwsError HttpMessage × List Event :=
  if env.signable_alloc_ok = false then
    (.error .opError, [])
  else if env.signer.immediate_failure then
    (.error .opError,
      [.signRequest request
        (make_signing_config region credentials expiration_in_seconds date_epoch_ms)])
  else if env.signer.completion_error_code ≠ 0 then
    (.error (.external env.signer.completion_error_code),
      [.signRequest request
        (make_signing_config region credentials expiration_in_seconds date_epoch_ms)])
  else
    (.ok { request with
        path := env.signer.sign
          (make_signing_config region credentials expiration_in_seconds date_epoch_ms)
          request.path },
      [.signRequest request
        (make_signing_config region credentials expiration_in_seconds date_epoch_ms)])

/-- A `aws_mem_calloc`-ed buffer of `n` bytes: all zero. -/
def callocBuffer (n : Nat) : List Char := List.replicate n (Char.ofNat 0)

/-- `memcpy(buf + offset, src, src.length)`. -/
def memcpyAt (buf : List Char) (offset : Nat) (src : List Char) : List Char :=
  buf.take offset ++ src ++ buf.drop (offset + src.length)

/-- Reading a buffer as a C string (`aws_string_new_from_c_str`): the bytes
up to the first NUL. -/
def cStrOf (buf : List Char) : List Char := buf.takeWhile (fun c => c ≠ Char.ofNat 0)

/-- Embedding of `s_create_token_string`: calloc a buffer of
`hostname_len + path_len + 1` zero bytes, `memcpy` the hostname at offset 0
and the signed request path right after it, and read the buffer back as a C
string. -/
def s_create_token_string (env : Env) (hostname : List Char) (request : HttpMessage) :
    Except AwsError (List Char) :=
  if env.token_alloc_ok = false then
    .error .oom
  else
    let path := request.path
    let total_len := hostname.length + path.length
    let token_buffer := callocBuffer (total_len + 1)
    let token_buffer := memcpyAt token_buffer 0 hostname
    let token_buffer := memcpyAt token_buffer hostname.length path
    .ok (cStrOf token_buffer)

/-- The body of `aws_dsql_auth_token_generate` up to (but not including) the
final write to the `token` out-parameter: the generated token string (or the
error), together with the trace of external invocations. -/
def s_generate_core (config : AuthConfig) (is_admin : Bool) (env : Env) :
    Except AwsError (List Char) × List Event :=
  match s_validate_token_config config with
  | .error e => (.error e, [])
  | .ok _ =>
    match config.hostname, config.credentials_provider, config.region with
    | some hostname, some provider, some region =>
      match s_get_current_time config env.sys_clock with
      | .error _ => (.error .opError, [])
      | .ok current_time_ms =>
        match s_load_credentials provider with
        | .error e => (.error e, [.resolveCredentials])
        | .ok credentials =>
          if env.request_alloc_ok = false then
            (.error .opError, [.resolveCredentials])
          else
            match s_sign_request env
              (s_create_http_request
                (if is_admin then ACTION_DB_CONNECT_ADMIN else ACTION_DB_CONNECT)
                hostname)
              credentials region config.expires_in current_time_ms with
            | (.error e, sign_events) => (.error e, .resolveCredentials :: sign_events)
            | (.ok signed_request, sign_events) =>
              match s_create_token_string env hostname signed_request with
              | .error e => (.error e, .resolveCredentials :: sign_events)
              | .ok token_string => (.ok token_string, .resolveCredentials :: sign_events)
    | _, _, _ =>
      -- dead branch: unreachable once `s_validate_token_config` succeeded
      (.error .invalidArgument, [])

/-- Result of one `aws_dsql_auth_token_generate` call on a
`struct aws_dsql_auth_token` out-parameter. -/
structure GenOutcome where
  result : Except AwsError Unit
  /-- the `token->token` field after the call -/
  token : Option (List Char)
  events : List Event
deriving Repr

/-- Embedding of `aws_dsql_auth_token_generate`.  `token` is the value of the
out-parameter's `token` field before the call; the C function reads or writes
it only in the final lines, where on success it destroys any existing string
and installs the new one. -/
def aws_dsql_auth_token_generate (config : AuthConfig) (is_admin : Bool)
    (env : Env) (token : Option (List Char)) : GenOutcome :=
  match s_generate_core config is_admin env with
  | (.error e, events) => { result := .error e, token := token, events := events }
  | (.ok token_string, events) =>
    { result := .ok (), token := some token_string, events := events }

/-! Concrete collaborator behaviors, mirroring the repository's test fixtures
(`tests/auth_token_tests.c`), used to exhibit satisfiability of the
hypotheses of the theorems below. -/

/-- The static test credentials `akid`/`secret`/`token`. -/
def testCredentials : Credentials :=
  { access_key_id := "akid".data
    secret_access_key := "secret".data
    session_token := some "token".data }

/-- A static credentials provider that completes successfully. -/
def testProvider : CredentialsProvider :=
  { immediate_failure := false
    completion_credentials := some testCredentials
    completion_error_code := 0 }

/-- A deterministic signer that completes successfully and leaves the path
unchanged. -/
def testSigner : SignerBehavior :=
  { immediate_failure := false
    completion_error_code := 0
    sign := fun _ path => path }

/-- An environment where every allocation succeeds and the system clock
reads the mock test time (2024-08-27T00:00:00Z in nanoseconds). -/
def testEnv : Env :=
  { request_alloc_ok := true
    signable_alloc_ok := true
    signer := testSigner
    token_alloc_ok := true
    sys_clock := .ok (1724716800 * 1000000000) }

/-- The test hostname `peccy.dsql.us-east-1.on.aws`. -/
def testHostname : List Char := "peccy.dsql.us-east-1.on.aws".data

/-- The fully populated test configuration with the mock clock installed. -/
def testConfig : AuthConfig :=
  { credentials_provider := some testProvider
    hostname := some testHostname
    region := some "us-east-1".data
    expires_in := 450
    system_clock_fn := some (.ok (1724716800 * 1000000000)) }

/-- A configuration built through the public setters, never calling
`aws_dsql_auth_config_set_expires_in` (so `expires_in` keeps the init
default). -/
def testConfigDefaultExpiry : AuthConfig :=
  { aws_dsql_auth_config_set_credentials_provider
      (aws_dsql_auth_config_set_region
        (aws_dsql_auth_config_set_hostname aws_dsql_auth_config_init testHostname)
        "us-east-1".data)
      (some testProvider)
    with system_clock_fn := some (.ok (1724716800 * 1000000000)) }

/-- The same configuration after `aws_dsql_auth_config_set_expires_in(cfg, 0)`. -/
def testConfigZeroExpiry : AuthConfig :=
  aws_dsql_auth_config_set_expires_in testConfigDefaultExpiry 0

/-! ## Theorems -/

/-- C1: for every hostname of the form `<cluster-id>.dsql.<region>.on.aws`
where the cluster-id is exactly 26 characters, the region is non-empty, and
the first occurrence of `.dsql.` starts at offset 26, region inference
(`aws_dsql_auth_config_infer_region` / `s_extract_region_from_hostname`)
succeeds and returns exactly the `<region>` substring between the end of that
first occurrence of `.dsql.` and the trailing `.on.aws`, as an independently
owned string. -/
theorem infer_region_valid_hostname
    (id region : List Char) (cfg : AuthConfig) (prev : Option (List Char))
    (hid : id.length = CLUSTER_ID_LENGTH)
    (hreg : region ≠ [])
    (hfirst : firstOccur DSQL_HOSTNAME_SUFFIX
      (id ++ DSQL_HOSTNAME_SUFFIX ++ region ++ DSQL_HOSTNAME_END) = some CLUSTER_ID_LENGTH)
    (hhost : cfg.hostname
      = some (id ++ DSQL_HOSTNAME_SUFFIX ++ region ++ DSQL_HOSTNAME_END)) :
    s_extract_region_from_hostname
        (some (id ++ DSQL_HOSTNAME_SUFFIX ++ region ++ DSQL_HOSTNAME_END))
      = (.ok (), some region)
    ∧ aws_dsql_auth_config_infer_region (some cfg) prev = (.ok (), some region) := by
  have hclen : CLUSTER_ID_LENGTH = 26 := rfl
  have hslen : DSQL_HOSTNAME_SUFFIX.length = 6 := rfl
  have helen : DSQL_HOSTNAME_END.length = 7 := rfl
  have hrlen : 0 < region.length := List.length_pos.mpr hreg
  have hidlen : id.length = 26 := by rw [hid, hclen]
  have hlen : (id ++ DSQL_HOSTNAME_SUFFIX ++ region ++ DSQL_HOSTNAME_END).length
      = 39 + region.length := by
    simp only [List.length_append, hslen, helen, hidlen]
    omega
  have hdropEnd :
      (id ++ DSQL_HOSTNAME_SUFFIX ++ region ++ DSQL_HOSTNAME_END).drop
          ((id ++ DSQL_HOSTNAME_SUFFIX ++ region ++ DSQL_HOSTNAME_END).length
            - DSQL_HOSTNAME_END.length)
        = DSQL_HOSTNAME_END := by
    rw [show id ++ DSQL_HOSTNAME_SUFFIX ++ region ++ DSQL_HOSTNAME_END
        = (id ++ DSQL_HOSTNAME_SUFFIX ++ region) ++ DSQL_HOSTNAME_END by
      simp [List.append_assoc]]
    refine List.drop_left' ?_
    simp only [List.length_append, hslen, helen, hidlen]
    omega
  have hdrop32 :
      (id ++ DSQL_HOSTNAME_SUFFIX ++ region ++ DSQL_HOSTNAME_END).drop
          (CLUSTER_ID_LENGTH + DSQL_HOSTNAME_SUFFIX.length)
        = region ++ DSQL_HOSTNAME_END := by
    rw [show id ++ DSQL_HOSTNAME_SUFFIX ++ region ++ DSQL_HOSTNAME_END
        = (id ++ DSQL_HOSTNAME_SUFFIX) ++ (region ++ DSQL_HOSTNAME_END) by
      simp [List.append_assoc]]
    refine List.drop_left' ?_
    simp only [List.length_append, hslen, hclen, hidlen]
  have hregionlen :
      ((id ++ DSQL_HOSTNAME_SUFFIX ++ region ++ DSQL_HOSTNAME_END).length
          - DSQL_HOSTNAME_END.length)
        - (CLUSTER_ID_LENGTH + DSQL_HOSTNAME_SUFFIX.length) = region.length := by
    rw [hlen, helen, hclen, hslen]
    omega
  have hext : s_extract_region_from_hostname
      (some (id ++ DSQL_HOSTNAME_SUFFIX ++ region ++ DSQL_HOSTNAME_END))
      = (.ok (), some region) := by
    simp only [s_extract_region_from_hostname]
    rw [if_neg (by rw [hlen]; omega)]
    rw [if_neg (by rw [hfirst]; simp)]
    rw [if_neg (by rw [hdropEnd]; simp)]
    simp only [hregionlen, hdrop32]
    rw [if_neg (by omega)]
    rw [List.take_left' rfl]
  refine ⟨hext, ?_⟩
  simp only [aws_dsql_auth_config_infer_region, hhost]
  exact hext

/-- Witness for C1 at the repository's own region-detection test hostname
`24abtvxzzxzrrfaxyduobmpfea.dsql.us-east-1.on.aws`. -/
theorem infer_region_valid_hostname_witness :
    s_extract_region_from_hostname
        (some ("24abtvxzzxzrrfaxyduobmpfea".data ++ DSQL_HOSTNAME_SUFFIX
          ++ "us-east-1".data ++ DSQL_HOSTNAME_END))
      = (.ok (), some "us-east-1".data) :=
  (infer_region_valid_hostname "24abtvxzzxzrrfaxyduobmpfea".data "us-east-1".data
    { credentials_provider := none
      hostname := some ("24abtvxzzxzrrfaxyduobmpfea".data ++ DSQL_HOSTNAME_SUFFIX
        ++ "us-east-1".data ++ DSQL_HOSTNAME_END)
      region := none
      expires_in := 900
      system_clock_fn := none }
    none (by decide) (by decide) (by decide) rfl).1

/-- C2: for every hostname violating a structural constraint (total length
below 40, first occurrence of `.dsql.` absent or not at offset 26, not ending
in `.on.aws`, or an empty region segment), region inference fails with
`AWS_ERROR_INVALID_ARGUMENT` and never returns a region: `*out_region` is
NULL after every such failure. -/
theorem extract_region_invalid_hostname
    (h : List Char) (cfg : AuthConfig) (prev : Option (List Char))
    (hhost : cfg.hostname = some h)
    (hviol : h.length < 40
      ∨ firstOccur DSQL_HOSTNAME_SUFFIX h ≠ some CLUSTER_ID_LENGTH
      ∨ h.drop (h.length - DSQL_HOSTNAME_END.length) ≠ DSQL_HOSTNAME_END
      ∨ (h.length - DSQL_HOSTNAME_END.length)
          - (CLUSTER_ID_LENGTH + DSQL_HOSTNAME_SUFFIX.length) = 0) :
    s_extract_region_from_hostname (some h) = (.error .invalidArgument, none)
    ∧ aws_dsql_auth_config_infer_region (some cfg) prev
      = (.error .invalidArgument, none) := by
  have hext : s_extract_region_from_hostname (some h)
      = (.error .invalidArgument, none) := by
    simp only [s_extract_region_from_hostname]
    split
    · rfl
    · split
      · rfl
      · split
        · rfl
        · rename_i hlen hfirst hdrop
          rw [if_pos ?_]
          rcases hviol with hv | hv | hv | hv
          · exact absurd hv hlen
          · exact absurd hv (by simpa using hfirst)
          · exact absurd hv (by simpa using hdrop)
          · exact hv
  refine ⟨hext, ?_⟩
  simp only [aws_dsql_auth_config_infer_region, hhost]
  exact hext

/-- Witness for C2 at the four invalid hostnames of the repository's
region-inference test (short cluster id, missing `.dsql.`, wrong suffix,
empty region). -/
theorem extract_region_invalid_hostname_witness :
    s_extract_region_from_hostname (some "12345.dsql.us-east-1.on.aws".data)
      = (.error .invalidArgument, none)
    ∧ s_extract_region_from_hostname
        (some "24abtvxzzxzrrfaxyduobmpfea.wrong.us-east-1.on.aws".data)
      = (.error .invalidArgument, none)
    ∧ s_extract_region_from_hostname
        (some "24abtvxzzxzrrfaxyduobmpfea.dsql.us-east-1.wrong".data)
      = (.error .invalidArgument, none)
    ∧ s_extract_region_from_hostname
        (some "24abtvxzzxzrrfaxyduobmpfea.dsql.on.aws".data)
      = (.error .invalidArgument, none) := by
  refine ⟨?_, ?_, ?_, ?_⟩
  · exact (extract_region_invalid_hostname _
      { credentials_provider := none
        hostname := some "12345.dsql.us-east-1.on.aws".data
        region := none, expires_in := 900, system_clock_fn := none }
      none rfl (Or.inl (by decide))).1
  · exact (extract_region_invalid_hostname _
      { credentials_provider := none
        hostname := some "24abtvxzzxzrrfaxyduobmpfea.wrong.us-east-1.on.aws".data
        region := none, expires_in := 900, system_clock_fn := none }
      none rfl (Or.inr (Or.inl (by decide)))).1
  · exact (extract_region_invalid_hostname _
      { credentials_provider := none
        hostname := some "24abtvxzzxzrrfaxyduobmpfea.dsql.us-east-1.wrong".data
        region := none, expires_in := 900, system_clock_fn := none }
      none rfl (Or.inr (Or.inr (Or.inl (by decide))))).1
  · exact (extract_region_invalid_hostname _
      { credentials_provider := none
        hostname := some "24abtvxzzxzrrfaxyduobmpfea.dsql.on.aws".data
        region := none, expires_in := 900, system_clock_fn := none }
      none rfl (Or.inl (by decide))).1

/-- `takeWhile` passes over a leading block whose elements all satisfy the
predicate. -/
theorem takeWhile_append_of_all (p : Char → Bool) (l r : List Char)
    (hl : ∀ c ∈ l, p c = true) :
    (l ++ r).takeWhile p = l ++ r.takeWhile p := by
  induction l with
  | nil => simp
  | cons a as ih =>
    simp only [List.cons_append, List.takeWhile_cons, hl a (List.mem_cons_self a as),
      if_true]
    rw [ih (fun c hc => hl c (List.mem_cons_of_mem a hc))]

/-- Dropping a block plus `n` more elements from an append. -/
theorem drop_append_add (l r : List Char) (n : Nat) :
    (l ++ r).drop (l.length + n) = r.drop n := by
  induction l with
  | nil => simp
  | cons a as ih =>
    simp only [List.cons_append, List.length_cons, Nat.succ_add, List.drop_succ_cons]
    exact ih

/-- The token buffer after the two `memcpy`s holds the hostname, the path,
and the terminating NUL from `aws_mem_calloc`. -/
theorem token_buffer_eq (hostname path : List Char) :
    memcpyAt (memcpyAt (callocBuffer (hostname.length + path.length + 1)) 0 hostname)
      hostname.length path = hostname ++ path ++ [Char.ofNat 0] := by
  have h1 : memcpyAt (callocBuffer (hostname.length + path.length + 1)) 0 hostname
      = hostname ++ List.replicate (path.length + 1) (Char.ofNat 0) := by
    simp only [memcpyAt, callocBuffer, List.take_zero, List.nil_append, Nat.zero_add,
      List.drop_replicate]
    have harith : hostname.length + path.length + 1 - hostname.length = path.length + 1 := by
      omega
    rw [harith]
  rw [h1]
  simp only [memcpyAt, List.take_left, drop_append_add, List.drop_replicate,
    Nat.add_sub_cancel_left, List.replicate_one, List.append_assoc]

/-- Reading the token buffer back as a C string recovers exactly
`hostname ++ path` when neither part contains a NUL byte. -/
theorem cStrOf_token_buffer (hostname path : List Char)
    (hh : Char.ofNat 0 ∉ hostname) (hp : Char.ofNat 0 ∉ path) :
    cStrOf (hostname ++ path ++ [Char.ofNat 0]) = hostname ++ path := by
  have hall : ∀ (l : List Char), Char.ofNat 0 ∉ l →
      ∀ c ∈ l, decide (c ≠ Char.ofNat 0) = true := by
    intro l hl c hc
    simp only [decide_eq_true_eq]
    intro he
    exact hl (he ▸ hc)
  unfold cStrOf
  rw [List.append_assoc]
  rw [takeWhile_append_of_all _ hostname _ (hall hostname hh)]
  rw [takeWhile_append_of_all _ path _ (hall path hp)]
  simp [List.takeWhile]

/-- C5: the assembled token string is the byte-for-byte concatenation of the
hostname with the signed path-and-query: no separator is inserted and no
escaping or re-encoding is applied to either part. -/
theorem create_token_string_concat (env : Env) (hostname : List Char)
    (request : HttpMessage)
    (halloc : env.token_alloc_ok = true)
    (hh : Char.ofNat 0 ∉ hostname) (hp : Char.ofNat 0 ∉ request.path) :
    s_create_token_string env hostname request = .ok (hostname ++ request.path) := by
  simp only [s_create_token_string, halloc]
  rw [if_neg (by simp)]
  rw [token_buffer_eq, cStrOf_token_buffer hostname request.path hh hp]

/-- Witness for C5 at the test hostname and a representative signed
path-and-query. -/
theorem create_token_string_concat_witness :
    s_create_token_string testEnv testHostname
        { method := "GET".data
          path := "/?Action=DbConnect&X-Amz-Expires=450".data
          headers := [("Host".data, testHostname)] }
      = .ok (testHostname ++ "/?Action=DbConnect&X-Amz-Expires=450".data) :=
  create_token_string_concat testEnv testHostname
    { method := "GET".data
      path := "/?Action=DbConnect&X-Amz-Expires=450".data
      headers := [("Host".data, testHostname)] }
    rfl (by decide) (by decide)

/-- C7: after the external credential resolution completes, the step fails
whenever the completion reported a nonzero error code or delivered no
credentials object; the raised error carries the external code when nonzero
and `AWS_ERROR_INVALID_STATE` otherwise; on success the resolved credentials
are handed to the caller. -/
theorem load_credentials_spec (provider : CredentialsProvider)
    (hcomp : provider.immediate_failure = false) :
    (provider.completion_error_code ≠ 0 →
      s_load_credentials provider = .error (.external provider.completion_error_code))
    ∧ (provider.completion_error_code = 0 → provider.completion_credentials = none →
      s_load_credentials provider = .error .invalidState)
    ∧ (∀ credentials, provider.completion_credentials = some credentials →
        provider.completion_error_code = 0 →
        s_load_credentials provider = .ok credentials) := by
  refine ⟨?_, ?_, ?_⟩ <;> intros <;> simp_all [s_load_credentials]

/-- Witness for C7: an external failure code is carried through, a
credentials-free success completion raises invalid-state, and the static test
provider hands its credentials to the caller. -/
theorem load_credentials_spec_witness :
    s_load_credentials
        { immediate_failure := false, completion_credentials := none
          completion_error_code := 5 }
      = .error (.external 5)
    ∧ s_load_credentials
        { immediate_failure := false, completion_credentials := none
          completion_error_code := 0 }
      = .error .invalidState
    ∧ s_load_credentials testProvider = .ok testCredentials :=
  ⟨(load_credentials_spec _ rfl).1 (by decide),
   (load_credentials_spec _ rfl).2.1 rfl rfl,
   (load_credentials_spec testProvider rfl).2.2 testCredentials rfl rfl⟩

/-- The generate wrapper reports exactly the core's event trace. -/
theorem generate_events_eq (config : AuthConfig) (is_admin : Bool) (env : Env)
    (t : Option (List Char)) :
    (aws_dsql_auth_token_generate config is_admin env t).events
      = (s_generate_core config is_admin env).2 := by
  unfold aws_dsql_auth_token_generate
  rcases h : s_generate_core config is_admin env with ⟨res, ev⟩
  cases res <;> rfl

/-- A successful validation pins all three checked fields to `some`. -/
theorem validate_ok_shape (config : AuthConfig)
    (h : s_validate_token_config config = .ok ()) :
    ∃ hostname provider region, config.hostname = some hostname
      ∧ config.credentials_provider = some provider
      ∧ config.region = some region := by
  unfold s_validate_token_config at h
  rcases hh : config.hostname with _ | hostname
  · rw [hh] at h; simp at h
  rcases hp : config.credentials_provider with _ | provider
  · rw [hh, hp] at h; simp at h
  rcases hr : config.region with _ | region
  · rw [hh, hp, hr] at h; simp at h
  exact ⟨hostname, provider, region, rfl, rfl, rfl⟩

/-- The signing step either never reaches the external signer (signable
allocation failed) or hands it exactly the built request and the signing
configuration `s_sign_request` fills in. -/
theorem sign_request_events (env : Env) (request : HttpMessage)
    (credentials : Credentials) (region : List Char)
    (expiration_in_seconds : Nat) (date_epoch_ms : Nat) :
    (s_sign_request env request credentials region expiration_in_seconds date_epoch_ms).2 = []
    ∨ (s_sign_request env request credentials region expiration_in_seconds date_epoch_ms).2
      = [Event.signRequest request
          (make_signing_config region credentials expiration_in_seconds date_epoch_ms)] := by
  unfold s_sign_request
  split
  · exact Or.inl rfl
  · split
    · exact Or.inr rfl
    · split
      · exact Or.inr rfl
      · exact Or.inr rfl

/-- Every request/signing-configuration pair handed to the signer during one
`generate` call comes from the validated configuration: the request is the
one `s_create_http_request` builds for the selected action and hostname, and
the configuration carries the loaded credentials, the region, the configured
expiration, and the millisecond timestamp. -/
theorem core_sign_event_shape (config : AuthConfig) (is_admin : Bool) (env : Env)
    (req : HttpMessage) (scfg : SigningConfig)
    (hev : Event.signRequest req scfg ∈ (s_generate_core config is_admin env).2) :
    ∃ hostname provider region credentials time_ms,
      config.hostname = some hostname
      ∧ config.credentials_provider = some provider
      ∧ config.region = some region
      ∧ s_get_current_time config env.sys_clock = .ok time_ms
      ∧ s_load_credentials provider = .ok credentials
      ∧ req = s_create_http_request
          (if is_admin then ACTION_DB_CONNECT_ADMIN else ACTION_DB_CONNECT) hostname
      ∧ scfg = make_signing_config region credentials config.expires_in time_ms := by
  unfold s_generate_core at hev
  rcases hval : s_validate_token_config config with e | u
  · simp only [hval] at hev; simp at hev
  simp only [hval] at hev
  rcases hh : config.hostname with _ | hostname
  · simp only [hh] at hev; simp at hev
  simp only [hh] at hev
  rcases hp : config.credentials_provider with _ | provider
  · simp only [hp] at hev; simp at hev
  simp only [hp] at hev
  rcases hr : config.region with _ | region
  · simp only [hr] at hev; simp at hev
  simp only [hr] at hev
  rcases hclock : s_get_current_time config env.sys_clock with u₁ | time_ms
  · simp only [hclock] at hev; simp at hev
  simp only [hclock] at hev
  rcases hcreds : s_load_credentials provider with e₁ | credentials
  · simp only [hcreds] at hev; simp at hev
  simp only [hcreds] at hev
  rcases halloc : env.request_alloc_ok with _ | _
  · simp only [halloc] at hev; simp at hev
  simp only [halloc] at hev
  rcases hsign : s_sign_request env
      (s_create_http_request
        (if is_admin then ACTION_DB_CONNECT_ADMIN else ACTION_DB_CONNECT) hostname)
      credentials region config.expires_in time_ms with ⟨sres, sev⟩
  have hsev := sign_request_events env
    (s_create_http_request
      (if is_admin then ACTION_DB_CONNECT_ADMIN else ACTION_DB_CONNECT) hostname)
    credentials region config.expires_in time_ms
  rw [hsign] at hsev
  have hmem : Event.signRequest req scfg ∈ sev := by
    rcases sres with e₂ | signed
    · simp only [hsign] at hev
      simpa using hev
    · simp only [hsign] at hev
      rcases hts : s_create_token_string env hostname signed with e₃ | ts
      · simp only [hts] at hev; simpa using hev
      · simp only [hts] at hev; simpa using hev
  rcases hsev with hnil | hone
  · have hnil₂ : sev = [] := hnil
    rw [hnil₂] at hmem; simp at hmem
  · have hone₂ : sev
        = [Event.signRequest
            (s_create_http_request
              (if is_admin then ACTION_DB_CONNECT_ADMIN else ACTION_DB_CONNECT) hostname)
            (make_signing_config region credentials config.expires_in time_ms)] := hone
    rw [hone₂] at hmem
    simp only [List.mem_singleton, Event.signRequest.injEq] at hmem
    exact ⟨hostname, provider, region, credentials, time_ms, rfl, rfl, rfl, rfl, hcreds,
      hmem.1, hmem.2⟩

/-- C3: whenever the hostname, the region, or the credentials provider is
absent from the configuration, `aws_dsql_auth_token_generate` fails with
`AWS_ERROR_INVALID_ARGUMENT` raised by the validation step alone, leaves the
token untouched, and invokes neither the credentials provider nor the
signer. -/
theorem generate_missing_config_invalid (config : AuthConfig) (is_admin : Bool)
    (env : Env) (t : Option (List Char))
    (hmissing : config.hostname = none ∨ config.region = none
      ∨ config.credentials_provider = none) :
    s_validate_token_config config = .error .invalidArgument
    ∧ aws_dsql_auth_token_generate config is_admin env t
      = { result := .error .invalidArgument, token := t, events := [] } := by
  have hval : s_validate_token_config config = .error .invalidArgument := by
    rcases hmissing with hv | hv | hv <;> simp [s_validate_token_config, hv]
  have hcore : s_generate_core config is_admin env = (.error .invalidArgument, []) := by
    unfold s_generate_core
    rw [hval]
  refine ⟨hval, ?_⟩
  unfold aws_dsql_auth_token_generate
  rw [hcore]

/-- Witness for C3 at the freshly initialized configuration, in which all
three fields are absent. -/
theorem generate_missing_config_invalid_witness :
    aws_dsql_auth_token_generate aws_dsql_auth_config_init false testEnv
        (some "prior-token".data)
      = { result := .error .invalidArgument, token := some "prior-token".data
          events := [] } :=
  (generate_missing_config_invalid aws_dsql_auth_config_init false testEnv
    (some "prior-token".data) (Or.inl rfl)).2

/-- C9: `generate` keeps no state across calls: with identical configuration,
identical injected clock, and the same deterministic collaborators, the
result and the trace are independent of the prior token value, and on success
the produced token is byte-identical regardless of what the output struct
held before — so two successive calls yield byte-identical tokens. -/
theorem generate_stateless_deterministic (config : AuthConfig) (is_admin : Bool)
    (env : Env) (t₁ t₂ : Option (List Char)) :
    (aws_dsql_auth_token_generate config is_admin env t₁).result
      = (aws_dsql_auth_token_generate config is_admin env t₂).result
    ∧ (aws_dsql_auth_token_generate config is_admin env t₁).events
      = (aws_dsql_auth_token_generate config is_admin env t₂).events
    ∧ ((aws_dsql_auth_token_generate config is_admin env t₁).result = .ok () →
      (aws_dsql_auth_token_generate config is_admin env t₁).token
        = (aws_dsql_auth_token_generate config is_admin env t₂).token) := by
  unfold aws_dsql_auth_token_generate
  rcases h : s_generate_core config is_admin env with ⟨res, ev⟩
  cases res <;> simp

/-- Witness for C9: a second call on the same config and environment, with
the first call's token already installed, reproduces the same token bytes. -/
theorem generate_stateless_deterministic_witness :
    (aws_dsql_auth_token_generate testConfig false testEnv none).token
      = (aws_dsql_auth_token_generate testConfig false testEnv
          (aws_dsql_auth_token_generate testConfig false testEnv none).token).token :=
  (generate_stateless_deterministic testConfig false testEnv none
    (aws_dsql_auth_token_generate testConfig false testEnv none).token).2.2 rfl

/-- C10: on every failure return of `aws_dsql_auth_token_generate` the output
token struct is left exactly as it was before the call; the token field is
destroyed and replaced (with the newly assembled string) only on the success
path. -/
theorem generate_failure_preserves_token (config : AuthConfig) (is_admin : Bool)
    (env : Env) (t : Option (List Char)) :
    (∀ e, (aws_dsql_auth_token_generate config is_admin env t).result = .error e →
      (aws_dsql_auth_token_generate config is_admin env t).token = t)
    ∧ ((aws_dsql_auth_token_generate config is_admin env t).result = .ok () →
      ∃ token_string, (s_generate_core config is_admin env).1 = .ok token_string
        ∧ (aws_dsql_auth_token_generate config is_admin env t).token
          = some token_string) := by
  unfold aws_dsql_auth_token_generate
  rcases h : s_generate_core config is_admin env with ⟨res, ev⟩
  cases res <;> simp

/-- Witness for C10: a validation failure leaves a previously generated token
value in place. -/
theorem generate_failure_preserves_token_witness :
    (aws_dsql_auth_token_generate aws_dsql_auth_config_init false testEnv
        (some "previous".data)).token = some "previous".data :=
  (generate_failure_preserves_token aws_dsql_auth_config_init false testEnv
    (some "previous".data)).1 .invalidArgument rfl

/-- C6: every unsigned request handed to the signer during a `generate` call
has method `GET`, path `/?Action=DbConnectAdmin` when `is_admin` is true and
`/?Action=DbConnect` otherwise, and a single `Host` header carrying the
configured hostname. -/
theorem generate_unsigned_request (config : AuthConfig) (is_admin : Bool) (env : Env)
    (t : Option (List Char)) (req : HttpMessage) (scfg : SigningConfig)
    (hostname : List Char) (hhost : config.hostname = some hostname)
    (hev : Event.signRequest req scfg
      ∈ (aws_dsql_auth_token_generate config is_admin env t).events) :
    req.method = "GET".data
    ∧ req.path = (if is_admin then "/?Action=DbConnectAdmin".data
        else "/?Action=DbConnect".data)
    ∧ req.headers = [("Host".data, hostname)] := by
  rw [generate_events_eq] at hev
  obtain ⟨hostname₁, provider, region, credentials, time_ms, hh, hp, hr, hclock, hcreds,
    hreq, hcfg⟩ := core_sign_event_shape config is_admin env req scfg hev
  have heq : hostname = hostname₁ := by
    rw [hhost] at hh
    exact Option.some.inj hh
  subst heq
  subst hreq
  cases is_admin
  · exact ⟨rfl, rfl, rfl⟩
  · exact ⟨rfl, rfl, rfl⟩

/-- Witness for C6 at the deterministic test fixtures: the request handed to
the signer for a non-admin call on the test configuration. -/
theorem generate_unsigned_request_witness :
    ({ method := "GET".data
       path := "/?Action=DbConnect".data
       headers := [("Host".data, testHostname)] } : HttpMessage).method = "GET".data
    ∧ ({ method := "GET".data
         path := "/?Action=DbConnect".data
         headers := [("Host".data, testHostname)] } : HttpMessage).path
      = (if false then "/?Action=DbConnectAdmin".data else "/?Action=DbConnect".data)
    ∧ ({ method := "GET".data
         path := "/?Action=DbConnect".data
         headers := [("Host".data, testHostname)] } : HttpMessage).headers
      = [("Host".data, testHostname)] :=
  generate_unsigned_request testConfig false testEnv none
    { method := "GET".data
      path := "/?Action=DbConnect".data
      headers := [("Host".data, testHostname)] }
    (make_signing_config "us-east-1".data testCredentials 450 1724716800000)
    testHostname rfl (by decide)

/-- C8: the signing timestamp comes from the clock override when one is set
and from the system clock otherwise, converted from nanoseconds to a
millisecond epoch by integer division by 1,000,000; if the selected clock
fails, `generate` fails without invoking credential resolution or signing and
without touching the token. -/
theorem generate_clock_behavior (config : AuthConfig) (env : Env) (is_admin : Bool)
    (t : Option (List Char)) :
    (∀ ns, config.system_clock_fn = some (.ok ns) →
      s_get_current_time config env.sys_clock = .ok (ns / 1000000))
    ∧ (config.system_clock_fn = none → ∀ ns, env.sys_clock = .ok ns →
      s_get_current_time config env.sys_clock = .ok (ns / 1000000))
    ∧ ((config.system_clock_fn = some (.error ())
        ∨ (config.system_clock_fn = none ∧ env.sys_clock = .error ())) →
      s_validate_token_config config = .ok () →
      aws_dsql_auth_token_generate config is_admin env t
        = { result := .error .opError, token := t, events := [] })
    ∧ (∀ req scfg, Event.signRequest req scfg
        ∈ (aws_dsql_auth_token_generate config is_admin env t).events →
      ∃ time_ms, s_get_current_time config env.sys_clock = .ok time_ms
        ∧ scfg.date_epoch_ms = time_ms) := by
  refine ⟨?_, ?_, ?_, ?_⟩
  · intro ns h
    simp [s_get_current_time, h]
  · intro h ns h₂
    simp [s_get_current_time, h, h₂]
  · intro hclk hvalid
    obtain ⟨hostname, provider, region, hh, hp, hr⟩ := validate_ok_shape config hvalid
    have hclockerr : s_get_current_time config env.sys_clock = .error () := by
      rcases hclk with h₁ | ⟨h₁, h₂⟩
      · simp [s_get_current_time, h₁]
      · simp [s_get_current_time, h₁, h₂]
    have hcore : s_generate_core config is_admin env = (.error .opError, []) := by
      unfold s_generate_core
      rw [hvalid]
      simp only [hh, hp, hr, hclockerr]
    unfold aws_dsql_auth_token_generate
    rw [hcore]
  · intro req scfg hev
    rw [generate_events_eq] at hev
    obtain ⟨hostname, provider, region, credentials, time_ms, hh, hp, hr, hclock, hcreds,
      hreq, hcfg⟩ := core_sign_event_shape config is_admin env req scfg hev
    refine ⟨time_ms, hclock, ?_⟩
    rw [hcfg]
    exact rfl

/-- Witness for C8: the mock override clock is read and divided down to
milliseconds, and a failing override makes `generate` fail with an empty
trace. -/
theorem generate_clock_behavior_witness :
    s_get_current_time testConfig testEnv.sys_clock
      = .ok (1724716800 * 1000000000 / 1000000)
    ∧ aws_dsql_auth_token_generate
        { testConfig with system_clock_fn := some (.error ()) } false testEnv none
      = { result := .error .opError, token := none, events := [] } :=
  ⟨(generate_clock_behavior testConfig testEnv false none).1
      (1724716800 * 1000000000) rfl,
   (generate_clock_behavior { testConfig with system_clock_fn := some (.error ()) }
      testEnv false none).2.2.1 (Or.inl rfl) rfl⟩

/-- C4 (refuting evaluation): a freshly initialized configuration does carry
the 900-second default to the signer, but after
`aws_dsql_auth_config_set_expires_in(config, 0)` the signing step receives
expiration 0, not 900 — the setter stores its argument verbatim and
`generate` forwards `config->expires_in` unchanged, contradicting the header
documentation of `expires_in` ("Default is 900 seconds (15 minutes) if 0 is
specified"). -/
theorem expires_in_zero_reaches_signer :
    testConfigDefaultExpiry.expires_in = DEFAULT_EXPIRES_IN
    ∧ (aws_dsql_auth_token_generate testConfigDefaultExpiry false testEnv none).events
      = [Event.resolveCredentials,
         Event.signRequest
           { method := "GET".data
             path := "/?Action=DbConnect".data
             headers := [("Host".data, testHostname)] }
           (make_signing_config "us-east-1".data testCredentials 900 1724716800000)]
    ∧ testConfigZeroExpiry.expires_in = 0
    ∧ (aws_dsql_auth_token_generate testConfigZeroExpiry false testEnv none).events
      = [Event.resolveCredentials,
         Event.signRequest
           { method := "GET".data
             path := "/?Action=DbConnect".data
             headers := [("Host".data, testHostname)] }
           (make_signing_config "us-east-1".data testCredentials 0 1724716800000)] :=
  ⟨rfl, by decide, rfl, by decide⟩

end AwsDsqlAuth
